import Mathlib

/-!
Shallow embedding of `experiments_segmentation/run_eval_superpixels.py`.

The script is orchestration glue: CLI parameter resolution (`arg_parse_params`),
pair discovery, a per-pair evaluation callback (`compute_boundary_distance`)
dispatched over a worker pool, and pandas-based aggregation/export (`main`).

Modelling choices:
  * Paths are `String`; the filesystem is an abstract record `FS` of boolean
    predicates (`os.path.isdir`, `os.path.exists`) together with the
    repository-external helpers `update_path` and
    `find_files_match_names_across_dirs` (the latter two are `imsegm` code not
    present under `src/`, hence modelled from the spec as uninterpreted data).
  * The external collaborators (image loading, SLIC segmentation, the
    boundary-distance routine) form a record `Env Arr` over an abstract array
    type `Arr`; the script never inspects the arrays, it only pipes them.
  * `numpy` floats are modelled as `NpFloat` (`nan` or an exact rational);
    `np.mean` of a list is `nan` exactly on the empty list, otherwise the
    arithmetic mean.
  * Effects are made explicit: every function returns the log lines it emits
    and the files it writes.
  * The pandas frame built by `main` is modelled by `PdFrame` (a column list
    plus a list of records); `DataFrame.append` of a dict adds the dict keys as
    columns, and `set_index` raises a `KeyError` when the named column is not
    among the columns — in particular on the empty frame `pd.DataFrame()`.
-/

/-! ### Decimal rendering (the `%i` and `%.2f` conversions of the format string) -/

/-- Decimal digits of `n`, most significant first, with structural fuel so the
kernel can evaluate it.  `natCharsAux (n+1) n` is total for fuel `> n`. -/
def natCharsAux : ℕ → ℕ → List Char
  | 0, _ => []
  | fuel + 1, n =>
    if n < 10 then [Nat.digitChar n]
    else natCharsAux fuel (n / 10) ++ [Nat.digitChar (n % 10)]

/-- Decimal rendering of a natural number, e.g. `205 ↦ ['2','0','5']`. -/
def natChars (n : ℕ) : List Char := natCharsAux (n + 1) n

/-- Rendering of `'%i' % n` for a Python int: decimal digits with a leading
minus sign for negative values. -/
def intChars (n : ℤ) : List Char :=
  if n < 0 then '-' :: natChars n.natAbs else natChars n.toNat

/-- Round `(100 * num) / den` to the nearest integer, ties to even — the
rounding performed by `'%.2f'` at two fractional digits. -/
def roundHalfEvenCenti (num den : ℕ) : ℕ :=
  let c := 100 * num
  let fl := c / den
  let rem2 := 2 * (c % den)
  if den < rem2 then fl + 1
  else if rem2 < den then fl
  else if fl % 2 = 0 then fl else fl + 1

/-- Left-pad the two fractional digits with `'0'` when below ten. -/
def pad2 (m : ℕ) : List Char := if m < 10 then '0' :: natChars m else natChars m

/-- Rendering of `'%.2f' % q`: sign, integer part, `'.'`, two fractional
digits, after rounding `q` to centesimals (ties to even). -/
def fixed2Chars (q : ℚ) : List Char :=
  let m := roundHalfEvenCenti q.num.natAbs q.den
  (if q.num < 0 then ['-'] else []) ++ natChars (m / 100) ++ '.' :: pad2 (m % 100)

/-- The format template `NAME_CSV_DISTANCES` of the script, applied to the
three segmentation parameters:
`'measured_boundary_distances_SLIC_size-%i_regul-%.2f_slico-%i.csv' % (size, regul, slico)`
(Python renders the boolean `slico` as `1`/`0` under `%i`).
The literal text is split at the `'_'` delimiters that follow the variable
parts, which eases reasoning about the encoding; the concatenation equals the
formatted string. -/
def nameCsvChars (size : ℤ) (regul : ℚ) (slico : Bool) : List Char :=
  "measured_boundary_distances_SLIC_size-".data
    ++ intChars size
    ++ '_' :: ("regul-".data
    ++ fixed2Chars regul
    ++ '_' :: ("slico-".data
    ++ (if slico then '1' else '0') :: ".csv".data))

/-- `NAME_CSV_DISTANCES % (size, regul, slico)` as a `String`. -/
def NAME_CSV_DISTANCES (size : ℤ) (regul : ℚ) (slico : Bool) : String :=
  String.mk (nameCsvChars size regul slico)

/-! ### `os.path` helpers used by the script -/

/-- Characters after the last `'/'` — `os.path.basename`. -/
def basenameChars (l : List Char) : List Char :=
  (l.reverse.takeWhile (fun c => c != '/')).reverse

/-- The stem produced by `os.path.splitext(b)[0]` on a base name `b`:
strip from the last dot, unless every character before that dot is a dot
(so `.hidden` and `...` are left whole). -/
def stemChars (b : List Char) : List Char :=
  let r := b.reverse
  let suf := r.takeWhile (fun c => c != '.')
  if suf.length = r.length then b
  else
    let pre := r.drop (suf.length + 1)
    if pre.any (fun c => c != '.') then pre.reverse else b

/-- `os.path.basename` on strings. -/
def osBasename (s : String) : String := String.mk (basenameChars s.data)

/-- `os.path.splitext(s)[0]` on strings. -/
def splitextStem (s : String) : String := String.mk (stemChars s.data)

/-- Index one past the last `'/'` (`s.rfind('/') + 1`), `0` when there is no
slash. -/
def lastSlashPos (l : List Char) : ℕ :=
  l.length - (l.reverse.takeWhile (fun c => c != '/')).length

/-- `os.path.dirname`: everything before the last `'/'`, with trailing slashes
stripped unless the head consists only of slashes. -/
def osDirname (s : String) : String :=
  let head := s.data.take (lastSlashPos s.data)
  if head ≠ [] ∧ head.all (fun c => c == '/') = false then
    String.mk ((head.reverse.dropWhile (fun c => c == '/')).reverse)
  else String.mk head

/-- `os.path.join(a, b)` for the two-argument uses in the script. -/
def osPathJoin (a b : String) : String :=
  if b.data.head? = some '/' then b
  else if a = "" ∨ a.data.getLast? = some '/' then a ++ b
  else a ++ "/" ++ b

/-! ### Data model -/

/-- A `numpy` floating value as the script observes it: either not-a-number or
an exact rational. -/
inductive NpFloat
  | nan
  | val (q : ℚ)
deriving DecidableEq

/-- `np.mean` of a list of distances: `nan` on the empty list, otherwise the
arithmetic mean. -/
def npMean (l : List ℚ) : NpFloat :=
  if l = [] then NpFloat.nan else NpFloat.val (l.sum / l.length)

/-- One row of the pair table: the matched image path and annotation path. -/
structure Row where
  path_image : String
  path_segm : String
deriving DecidableEq

/-- The resolved parameter set (the `params` dict after `argparse`). -/
structure Params where
  path_images : String
  path_segms : String
  path_out : String
  img_type : String
  slic_size : ℤ
  slic_regul : ℚ
  slico : Bool
  nb_workers : ℤ
deriving DecidableEq

/-- The filesystem and the repository helpers the script consults.
`isdir` and `pexists` embed `os.path.isdir` / `os.path.exists`.

`updatePath` is modelled from the spec: `imsegm.utilities.data_io.update_path`
is not under `src/`; per the spec it is a path-normalization step (resolving
relative/aliased roots), kept uninterpreted here.

`discover` is modelled from the spec:
`imsegm.utilities.data_io.find_files_match_names_across_dirs` is not under
`src/`; per the spec it returns the ordered table of image/annotation pairs
matched by base-name stem across the two glob patterns, kept uninterpreted. -/
structure FS where
  isdir : String → Bool
  pexists : String → Bool
  updatePath : String → String
  discover : String → String → List Row

/-- The external collaborators over an abstract array type:
`load_image` (from `run_segm_slic_model_graphcut`),
`imsegm.superpixels.segment_slic_img2d`, and
`imsegm.labeling.compute_boundary_distances` (which returns boundary points
and the list of per-point distances; the script keeps only the distances). -/
structure Env (Arr : Type) where
  load_image : String → String → Arr
  segment_slic_img2d : Arr → ℤ → ℚ → Bool → Arr
  compute_boundary_distances : Arr → Arr → List ℕ × List ℚ

/-- Result of one per-pair evaluation, with its effects made explicit:
the returned `(name, mean distance)` pair, the files written, and the
`(path, mode)` trace of `load_image` calls in call order. -/
structure PairOut where
  name : String
  dist : NpFloat
  writes : List String
  loads : List (String × String)
deriving DecidableEq

/-! ### `compute_boundary_distance` (lines 107–130) -/

/-- Embedding of `compute_boundary_distance(idx_row, params, path_out)`:
derive the name from the image path, load image and annotation, segment,
measure boundary distances, optionally save the visualization figure as
`<name>.jpg` under `path_out`, and return `(name, np.mean(dists))`.
The function is total: an empty distance list yields `NpFloat.nan`. -/
def compute_boundary_distance {Arr : Type} (env : Env Arr) (fs : FS)
    (idx_row : ℕ × Row) (params : Params) (path_out : String) : PairOut :=
  let row := idx_row.2
  let name := splitextStem (osBasename row.path_image)
  let img := env.load_image row.path_image params.img_type
  let segm := env.load_image row.path_segm "2d_segm"
  let slic := env.segment_slic_img2d img params.slic_size params.slic_regul params.slico
  let dists := (env.compute_boundary_distances segm slic).2
  { name := name
    dist := npMean dists
    writes := if fs.isdir path_out then [osPathJoin path_out (name ++ ".jpg")] else []
    loads := [(row.path_image, params.img_type), (row.path_segm, "2d_segm")] }

/-! ### `arg_parse_params` (lines 55–104) -/

/-- A failed `assert os.path.exists(p), 'missing: (%s) "%s"' % (k, p)`:
the offending option name and the missing path. -/
structure AssertErr where
  key : String
  path : String
deriving DecidableEq

/-- The message text of the assertion: `'missing: (%s) "%s"' % (k, p)`. -/
def AssertErr.render (e : AssertErr) : String :=
  "missing: (" ++ e.key ++ ") \"" ++ e.path ++ "\""

/-- The location whose existence the assert requires for a value `v`:
`os.path.dirname(v)` when `v` contains a wildcard `'*'`, else `v` itself. -/
def checkTarget (v : String) : String :=
  if '*' ∈ v.data then osDirname v else v

/-- Embedding of the validation loop of `arg_parse_params` over the keys that
contain `"path"`, in dict insertion order (`path_images`, `path_segms`,
`path_out`).  Each value is first passed through `update_path`; `path_out` is
reset to `""` (skipping the assert) when it is not an existing directory; every
other path option must have its check target exist, else the assertion fires. -/
def arg_parse_params (fs : FS) (p : Params) : Except AssertErr Params :=
  if fs.pexists (checkTarget (fs.updatePath p.path_images)) = false then
    Except.error ⟨"path_images", checkTarget (fs.updatePath p.path_images)⟩
  else if fs.pexists (checkTarget (fs.updatePath p.path_segms)) = false then
    Except.error ⟨"path_segms", checkTarget (fs.updatePath p.path_segms)⟩
  else if fs.isdir (fs.updatePath p.path_out) = false then
    Except.ok { p with path_images := fs.updatePath p.path_images
                       path_segms := fs.updatePath p.path_segms
                       path_out := "" }
  else if fs.pexists (checkTarget (fs.updatePath p.path_out)) = false then
    Except.error ⟨"path_out", checkTarget (fs.updatePath p.path_out)⟩
  else
    Except.ok { p with path_images := fs.updatePath p.path_images
                       path_segms := fs.updatePath p.path_segms
                       path_out := fs.updatePath p.path_out }

/-! ### The pandas fragment used by `main` -/

/-- A cell value of the result frame. -/
inductive PdVal
  | str (s : String)
  | num (x : NpFloat)
deriving DecidableEq

/-- A pandas `DataFrame` as the script uses it: the column list and the
records (association lists from column name to value; after `set_index` the
former index column survives in the record as the row label). -/
structure PdFrame where
  cols : List String
  recs : List (List (String × PdVal))
deriving DecidableEq

/-- `pd.DataFrame()`: no columns, no rows. -/
def pdEmpty : PdFrame := { cols := [], recs := [] }

/-- `df.append(rec, ignore_index=True)`: the dict keys not yet present join
the columns, and the record is appended. -/
def pdAppendRec (df : PdFrame) (rec : List (String × PdVal)) : PdFrame :=
  { cols := df.cols ++ (rec.map Prod.fst).filter (fun c => !(df.cols.contains c))
    recs := df.recs ++ [rec] }

/-- The `KeyError` text raised by `set_index` on a missing column. -/
def keyErrorName : String := "KeyError: None of [name] are in the columns"

/-- `df.set_index(c, inplace=True)`: the column must exist — on the empty
frame `pd.DataFrame()` there are no columns at all, and pandas raises a
`KeyError`.  On success the column moves out of `cols` (it becomes the index;
the record keeps the value as its row label). -/
def pdSetIndex (df : PdFrame) (c : String) : Except String PdFrame :=
  if c ∈ df.cols then
    Except.ok { cols := df.cols.filter (fun x => x != c), recs := df.recs }
  else Except.error keyErrorName

/-- A shallow stand-in for the text of `df.describe()`; the claims only
require that a statistics line for the final frame is logged, never its
content.  `describe` is total, also on an empty frame. -/
def pdDescribe (df : PdFrame) : String := "count " ++ String.mk (natChars df.recs.length)

/-- The record appended for one result:
`{'name': name, 'mean boundary distance': dist}`. -/
def distRec (r : PairOut) : List (String × PdVal) :=
  [("name", PdVal.str r.name), ("mean boundary distance", PdVal.num r.dist)]

/-- The frame obtained by appending one record per result, in the order the
pool yields them, starting from `pd.DataFrame()`. -/
def aggregate (results : List PairOut) : PdFrame :=
  results.foldl (fun d r => pdAppendRec d (distRec r)) pdEmpty

/-! ### The worker pool and `main` (lines 133–159) -/

/-- Reorder `l` by a completion order `ord` (a permutation of the positions);
an `ord` that is not such a permutation is treated as the identity order. -/
def reorder {β : Type} (ord : List ℕ) (l : List β) : List β :=
  if List.Perm ord (List.range l.length) then ord.filterMap (fun i => l[i]?) else l

/-- Modelled from the spec: `imsegm.utilities.experiments.WrapExecuteSequence`
is not under `src/`.  Per the spec it maps `f` over the work items with a pool
of `nbWorkers` processes and yields the results in completion order (an
arbitrary permutation of the submission order, here the input `ord`); one
worker means strictly sequential execution yielding submission order. -/
def wrapExecuteSequence {α β : Type} (f : α → β) (items : List α)
    (nbWorkers : ℤ) (ord : List ℕ) : List β :=
  if nbWorkers = 1 then items.map f else reorder ord (items.map f)

/-- The informational notice of line 139. -/
def missingDirMsg : String := "Missing output dir -> no visual export & results table."

instance exceptDecEq {ε α : Type} [DecidableEq ε] [DecidableEq α] :
    DecidableEq (Except ε α) := fun a b =>
  match a, b with
  | Except.error x, Except.error y =>
      if h : x = y then isTrue (h ▸ rfl) else isFalse (fun he => h (Except.error.inj he))
  | Except.ok x, Except.ok y =>
      if h : x = y then isTrue (h ▸ rfl) else isFalse (fun he => h (Except.ok.inj he))
  | Except.error _, Except.ok _ => isFalse (fun h => Except.noConfusion h)
  | Except.ok _, Except.error _ => isFalse (fun h => Except.noConfusion h)

/-- The outcome of `main`: the log lines emitted, the files written, and
either the final (indexed) result frame or the pandas error that aborted it. -/
structure MainOut where
  logs : List String
  writes : List String
  result : Except String PdFrame
deriving DecidableEq

/-- The stream of per-pair results produced by the pool in `main`:
`compute_boundary_distance` partially applied to `params` and
`params.path_out`, mapped over `df_paths.iterrows()` (index/row pairs). -/
def mainResults {Arr : Type} (env : Env Arr) (fs : FS) (params : Params)
    (ord : List ℕ) : List PairOut :=
  wrapExecuteSequence
    (fun ir => compute_boundary_distance env fs ir params params.path_out)
    (fs.discover params.path_images params.path_segms).enum
    params.nb_workers ord

/-- Embedding of `main(params)`.  Note the condition of line 138 exactly as in
the source: the "Missing output dir" notice is logged when
`os.path.isdir(params['path_out'])` is TRUE.  Then the pair table is built,
the pool is mapped over it, the results are appended to an (initially empty)
frame which is indexed by `'name'` — an exception from `set_index` aborts the
run — and finally the frame is written as CSV when the output directory exists
and the descriptive statistics are logged. -/
def mainRun {Arr : Type} (env : Env Arr) (fs : FS) (params : Params)
    (ord : List ℕ) : MainOut :=
  match pdSetIndex (aggregate (mainResults env fs params ord)) "name" with
  | Except.error e =>
      { logs := if fs.isdir params.path_out then [missingDirMsg] else []
        writes := ((mainResults env fs params ord).map PairOut.writes).flatten
        result := Except.error e }
  | Except.ok df =>
      { logs := (if fs.isdir params.path_out then [missingDirMsg] else []) ++
          ["STATISTIC:", pdDescribe df]
        writes := ((mainResults env fs params ord).map PairOut.writes).flatten ++
          (if fs.isdir params.path_out then
            [osPathJoin params.path_out
              (NAME_CSV_DISTANCES params.slic_size params.slic_regul params.slico)]
          else [])
        result := Except.ok df }

/-- The script's `__main__` block: `arg_parse_params` runs first and an
assertion failure terminates the process before `main` — and hence before any
per-pair work — begins. -/
def runScript {Arr : Type} (env : Env Arr) (fs : FS) (p : Params)
    (ord : List ℕ) : Except AssertErr MainOut :=
  match arg_parse_params fs p with
  | Except.error e => Except.error e
  | Except.ok q => Except.ok (mainRun env fs q ord)

/-! ### Concrete instances used by the witnesses -/

/-- A trivial collaborator environment over `Unit` arrays whose
boundary-distance routine returns no boundary points. -/
def envU : Env Unit :=
  { load_image := fun _ _ => ()
    segment_slic_img2d := fun _ _ _ _ => ()
    compute_boundary_distances := fun _ _ => ([], []) }

/-- A collaborator environment over `Unit` arrays returning two distances. -/
def envD : Env Unit :=
  { load_image := fun _ _ => ()
    segment_slic_img2d := fun _ _ _ _ => ()
    compute_boundary_distances := fun _ _ => ([0, 1], [1, 3]) }

/-- The rational `0.25`. -/
def qQuarter : ℚ := ⟨1, 4, by decide, by decide⟩

/-- The rational `0.251`. -/
def q251 : ℚ := ⟨251, 1000, by decide, by decide⟩

/-- The rational `0.252`. -/
def q252 : ℚ := ⟨63, 250, by decide, by decide⟩

/-- A sample pair-table row. -/
def rowU : Row := { path_image := "images/img_01.jpg", path_segm := "annot/img_01.png" }

/-- A sample parameter set (the script defaults, one worker). -/
def pU : Params :=
  { path_images := "images/*.jpg"
    path_segms := "annot/*.png"
    path_out := "results"
    img_type := "2d_split"
    slic_size := 20
    slic_regul := qQuarter
    slico := false
    nb_workers := 1 }

/-- A filesystem on which every path exists but no path is a directory, every
path normalizes to itself, and discovery finds the single pair `rowU`. -/
def fsNoDir : FS :=
  { isdir := fun _ => false
    pexists := fun _ => true
    updatePath := fun s => s
    discover := fun _ _ => [rowU] }

/-- A filesystem on which every path exists and is a directory, and discovery
finds the single pair `rowU`. -/
def fsAllDir : FS :=
  { isdir := fun _ => true
    pexists := fun _ => true
    updatePath := fun s => s
    discover := fun _ _ => [rowU] }

/-- A filesystem on which nothing exists at all. -/
def fsNothing : FS :=
  { isdir := fun _ => false
    pexists := fun _ => false
    updatePath := fun s => s
    discover := fun _ _ => [] }

/-- A filesystem with directories everywhere but an empty pair table. -/
def fsAllDirEmpty : FS :=
  { isdir := fun _ => true
    pexists := fun _ => true
    updatePath := fun s => s
    discover := fun _ _ => [] }

/-! ### Lemmas about the decimal rendering -/

theorem natCharsAux_congr : ∀ (f₁ f₂ n : ℕ), n < f₁ → n < f₂ →
    natCharsAux f₁ n = natCharsAux f₂ n := by
  intro f₁
  induction f₁ with
  | zero => intro f₂ n h1 _; omega
  | succ f ih =>
    intro f₂ n h1 h2
    cases f₂ with
    | zero => omega
    | succ f' =>
      simp only [natCharsAux]
      split
      · rfl
      · rw [ih f' (n / 10) (by omega) (by omega)]

/-- The self-feeding unfolding equation of `natChars`. -/
theorem natChars_eq (n : ℕ) :
    natChars n = if n < 10 then [Nat.digitChar n]
      else natChars (n / 10) ++ [Nat.digitChar (n % 10)] := by
  show natCharsAux (n + 1) n = _
  simp only [natCharsAux]
  split
  · rfl
  · show natCharsAux n (n / 10) ++ _ = natCharsAux (n / 10 + 1) (n / 10) ++ _
    rw [natCharsAux_congr n (n / 10 + 1) (n / 10) (by omega) (by omega)]

theorem natChars_ne_nil (n : ℕ) : natChars n ≠ [] := by
  rw [natChars_eq]
  split <;> simp

theorem natChars_mem (n : ℕ) : ∀ c ∈ natChars n, ∃ d, d < 10 ∧ c = Nat.digitChar d := by
  induction n using Nat.strong_induction_on with
  | _ n ih =>
    intro c hc
    rw [natChars_eq] at hc
    by_cases h : n < 10
    · rw [if_pos h] at hc
      simp only [List.mem_singleton] at hc
      exact ⟨n, h, hc⟩
    · rw [if_neg h] at hc
      rcases List.mem_append.mp hc with h1 | h2
      · exact ih (n / 10) (Nat.div_lt_self (by omega) (by omega)) c h1
      · simp only [List.mem_singleton] at h2
        exact ⟨n % 10, Nat.mod_lt _ (by omega), h2⟩

theorem natChars_head_digit (n : ℕ) :
    ∃ d, d < 10 ∧ (natChars n).head? = some (Nat.digitChar d) := by
  induction n using Nat.strong_induction_on with
  | _ n ih =>
    rw [natChars_eq]
    by_cases h : n < 10
    · exact ⟨n, h, by rw [if_pos h]; rfl⟩
    · obtain ⟨d, hd, hh⟩ := ih (n / 10) (Nat.div_lt_self (by omega) (by omega))
      refine ⟨d, hd, ?_⟩
      rw [if_neg h]
      obtain ⟨c, t, hct⟩ := List.exists_cons_of_ne_nil (natChars_ne_nil (n / 10))
      rw [hct]
      rw [hct] at hh
      simpa using hh

theorem digitChar_inj_lt : ∀ a < 10, ∀ b < 10, Nat.digitChar a = Nat.digitChar b → a = b := by
  decide

theorem digitChar_ne_underscore : ∀ a < 10, Nat.digitChar a ≠ '_' := by decide

theorem digitChar_ne_minus : ∀ a < 10, Nat.digitChar a ≠ '-' := by decide

theorem underscore_notin_natChars (n : ℕ) : '_' ∉ natChars n := by
  intro h
  obtain ⟨d, hd, hc⟩ := natChars_mem n '_' h
  exact digitChar_ne_underscore d hd hc.symm

theorem natChars_inj : ∀ (a b : ℕ), natChars a = natChars b → a = b := by
  intro a
  induction a using Nat.strong_induction_on with
  | _ a ih =>
    intro b h
    rw [natChars_eq a, natChars_eq b] at h
    by_cases ha : a < 10 <;> by_cases hb : b < 10
    · rw [if_pos ha, if_pos hb] at h
      simp only [List.cons.injEq, and_true] at h
      exact digitChar_inj_lt a ha b hb h
    · rw [if_pos ha, if_neg hb] at h
      have hlen := congrArg List.length h
      have hpos := List.length_pos.mpr (natChars_ne_nil (b / 10))
      simp only [List.length_singleton, List.length_append] at hlen
      omega
    · rw [if_neg ha, if_pos hb] at h
      have hlen := congrArg List.length h
      have hpos := List.length_pos.mpr (natChars_ne_nil (a / 10))
      simp only [List.length_singleton, List.length_append] at hlen
      omega
    · rw [if_neg ha, if_neg hb] at h
      have h' := congrArg List.reverse h
      simp only [List.reverse_append, List.reverse_singleton, List.singleton_append,
        List.cons.injEq, List.reverse_inj] at h'
      obtain ⟨hdig, hrest⟩ := h'
      have hmod : a % 10 = b % 10 :=
        digitChar_inj_lt _ (Nat.mod_lt _ (by omega)) _ (Nat.mod_lt _ (by omega)) hdig
      have hdiv : a / 10 = b / 10 :=
        ih (a / 10) (Nat.div_lt_self (by omega) (by omega)) (b / 10) hrest
      omega

theorem intChars_inj : ∀ (a b : ℤ), intChars a = intChars b → a = b := by
  intro a b h
  unfold intChars at h
  by_cases ha : a < 0 <;> by_cases hb : b < 0
  · rw [if_pos ha, if_pos hb] at h
    simp only [List.cons.injEq, true_and] at h
    have := natChars_inj _ _ h
    omega
  · rw [if_pos ha, if_neg hb] at h
    obtain ⟨d, hd, hh⟩ := natChars_head_digit b.toNat
    rw [← h] at hh
    simp only [List.head?_cons, Option.some.injEq] at hh
    exact absurd hh.symm (digitChar_ne_minus d hd)
  · rw [if_neg ha, if_pos hb] at h
    obtain ⟨d, hd, hh⟩ := natChars_head_digit a.toNat
    rw [h] at hh
    simp only [List.head?_cons, Option.some.injEq] at hh
    exact absurd hh.symm (digitChar_ne_minus d hd)
  · rw [if_neg ha, if_neg hb] at h
    have := natChars_inj _ _ h
    omega

theorem underscore_notin_intChars (n : ℤ) : '_' ∉ intChars n := by
  intro h
  unfold intChars at h
  split at h
  · rcases List.mem_cons.mp h with h1 | h2
    · exact absurd h1 (by decide)
    · exact underscore_notin_natChars _ h2
  · exact underscore_notin_natChars _ h

theorem underscore_notin_pad2 (m : ℕ) : '_' ∉ pad2 m := by
  intro h
  unfold pad2 at h
  split at h
  · rcases List.mem_cons.mp h with h1 | h2
    · exact absurd h1 (by decide)
    · exact underscore_notin_natChars _ h2
  · exact underscore_notin_natChars _ h

theorem underscore_notin_fixed2Chars (q : ℚ) : '_' ∉ fixed2Chars q := by
  intro h
  unfold fixed2Chars at h
  rcases List.mem_append.mp h with h1 | h2
  · rcases List.mem_append.mp h1 with h3 | h4
    · split at h3
      · exact absurd (List.mem_singleton.mp h3) (by decide)
      · exact absurd h3 (List.not_mem_nil '_')
    · exact underscore_notin_natChars _ h4
  · rcases List.mem_cons.mp h2 with h3 | h4
    · exact absurd h3 (by decide)
    · exact underscore_notin_pad2 _ h4

/-- Cancellation around an `'_'` delimiter: when neither left part contains
`'_'`, equal concatenations force equal parts. -/
theorem append_underscore_inj :
    ∀ (l₁ l₂ m₁ m₂ : List Char), '_' ∉ l₁ → '_' ∉ l₂ →
      l₁ ++ '_' :: m₁ = l₂ ++ '_' :: m₂ → l₁ = l₂ ∧ m₁ = m₂ := by
  intro l₁
  induction l₁ with
  | nil =>
    intro l₂ m₁ m₂ _ h2 h
    cases l₂ with
    | nil => simpa using h
    | cons c t =>
      simp only [List.nil_append, List.cons_append, List.cons.injEq] at h
      exact absurd (h.1 ▸ List.mem_cons_self c t) h2
  | cons c t ih =>
    intro l₂ m₁ m₂ h1 h2 h
    cases l₂ with
    | nil =>
      simp only [List.cons_append, List.nil_append, List.cons.injEq] at h
      exact absurd (h.1 ▸ List.mem_cons_self c t) h1
    | cons c' t' =>
      simp only [List.cons_append, List.cons.injEq] at h
      obtain ⟨hc, hrest⟩ := h
      have h1' : '_' ∉ t := fun hm => h1 (List.mem_cons_of_mem c hm)
      have h2' : '_' ∉ t' := fun hm => h2 (List.mem_cons_of_mem c' hm)
      obtain ⟨he, hm⟩ := ih t' m₁ m₂ h1' h2' hrest
      exact ⟨by rw [hc, he], hm⟩

/-- The summary filename determines — and is determined by — the region size,
the two-decimal rendering of the regularization, and the adaptive flag. -/
theorem nameCsvChars_eq_iff (s s' : ℤ) (r r' : ℚ) (b b' : Bool) :
    nameCsvChars s r b = nameCsvChars s' r' b' ↔
      (s = s' ∧ fixed2Chars r = fixed2Chars r' ∧ b = b') := by
  constructor
  · intro h
    unfold nameCsvChars at h
    simp only [List.append_assoc] at h
    have h1 := List.append_cancel_left h
    obtain ⟨hA, hrest⟩ := append_underscore_inj _ _ _ _
      (underscore_notin_intChars s) (underscore_notin_intChars s') h1
    have h2 := List.append_cancel_left hrest
    obtain ⟨hB, hrest2⟩ := append_underscore_inj _ _ _ _
      (underscore_notin_fixed2Chars r) (underscore_notin_fixed2Chars r') h2
    have h3 := List.append_cancel_left hrest2
    simp only [List.cons.injEq] at h3
    refine ⟨intChars_inj _ _ hA, hB, ?_⟩
    cases b <;> cases b'
    · rfl
    · exact absurd h3.1 (by decide)
    · exact absurd h3.1 (by decide)
    · rfl
  · intro h
    obtain ⟨hs, hf, hb⟩ := h
    unfold nameCsvChars
    rw [hs, hf, hb]

/-! ### Lemmas about the pool and the aggregation -/

theorem range_filterMap_getElem {α : Type} (l : List α) :
    (List.range l.length).filterMap (fun i => l[i]?) = l := by
  induction l with
  | nil => simp
  | cons a t ih =>
    rw [List.length_cons, List.range_succ_eq_map]
    rw [List.filterMap_cons]
    simp only [List.getElem?_cons_zero]
    rw [List.filterMap_map]
    have : ((fun i => (a :: t)[i]?) ∘ Nat.succ) = fun i => t[i]? := by
      funext i
      simp
    rw [this, ih]

theorem reorder_perm {β : Type} (ord : List ℕ) (l : List β) :
    List.Perm (reorder ord l) l := by
  unfold reorder
  split
  · rename_i h
    have hp : List.Perm (ord.filterMap (fun i => l[i]?))
        ((List.range l.length).filterMap (fun i => l[i]?)) :=
      h.filterMap _
    rw [range_filterMap_getElem] at hp
    exact hp
  · exact List.Perm.refl l

theorem wrapExecuteSequence_perm {α β : Type} (f : α → β) (items : List α)
    (n : ℤ) (ord : List ℕ) :
    List.Perm (wrapExecuteSequence f items n ord) (items.map f) := by
  unfold wrapExecuteSequence
  split
  · exact List.Perm.refl _
  · exact reorder_perm ord (items.map f)

theorem wrapExecuteSequence_one {α β : Type} (f : α → β) (items : List α)
    (ord : List ℕ) : wrapExecuteSequence f items 1 ord = items.map f := by
  unfold wrapExecuteSequence
  rw [if_pos rfl]

theorem aggregate_foldl_recs (l : List PairOut) (df : PdFrame) :
    (l.foldl (fun d r => pdAppendRec d (distRec r)) df).recs =
      df.recs ++ l.map distRec := by
  induction l generalizing df with
  | nil => simp
  | cons a t ih =>
    rw [List.foldl_cons, ih]
    simp [pdAppendRec]

theorem aggregate_recs (l : List PairOut) : (aggregate l).recs = l.map distRec := by
  unfold aggregate
  rw [aggregate_foldl_recs]
  rfl

theorem aggregate_foldl_cols_mono (l : List PairOut) (df : PdFrame) (c : String)
    (h : c ∈ df.cols) : c ∈ (l.foldl (fun d r => pdAppendRec d (distRec r)) df).cols := by
  induction l generalizing df with
  | nil => exact h
  | cons a t ih =>
    rw [List.foldl_cons]
    exact ih _ (List.mem_append_left _ h)

theorem aggregate_cols_name (l : List PairOut) (h : l ≠ []) :
    "name" ∈ (aggregate l).cols := by
  cases l with
  | nil => exact absurd rfl h
  | cons a t =>
    unfold aggregate
    rw [List.foldl_cons]
    refine aggregate_foldl_cols_mono t _ "name" ?_
    simp [pdAppendRec, pdEmpty, distRec]

theorem pdSetIndex_ok_of_name (df : PdFrame) (h : "name" ∈ df.cols) :
    pdSetIndex df "name" =
      Except.ok { cols := df.cols.filter (fun x => x != "name"), recs := df.recs } := by
  unfold pdSetIndex
  rw [if_pos h]

theorem mainRun_eq_of_nil {Arr : Type} (env : Env Arr) (fs : FS) (p : Params)
    (ord : List ℕ) (h : mainResults env fs p ord = []) :
    mainRun env fs p ord =
      { logs := if fs.isdir p.path_out then [missingDirMsg] else []
        writes := []
        result := Except.error keyErrorName } := by
  unfold mainRun
  rw [h]
  rfl

theorem mainRun_eq_of_ne_nil {Arr : Type} (env : Env Arr) (fs : FS) (p : Params)
    (ord : List ℕ) (h : mainResults env fs p ord ≠ []) :
    mainRun env fs p ord =
      { logs := (if fs.isdir p.path_out then [missingDirMsg] else []) ++
          ["STATISTIC:",
            pdDescribe
              { cols := (aggregate (mainResults env fs p ord)).cols.filter (fun x => x != "name")
                recs := (mainResults env fs p ord).map distRec }]
        writes := ((mainResults env fs p ord).map PairOut.writes).flatten ++
          (if fs.isdir p.path_out then
            [osPathJoin p.path_out
              (NAME_CSV_DISTANCES p.slic_size p.slic_regul p.slico)]
          else [])
        result := Except.ok
          { cols := (aggregate (mainResults env fs p ord)).cols.filter (fun x => x != "name")
            recs := (mainResults env fs p ord).map distRec } } := by
  unfold mainRun
  rw [pdSetIndex_ok_of_name _ (aggregate_cols_name _ h), aggregate_recs]

theorem compute_boundary_distance_workers_irrelevant {Arr : Type} (env : Env Arr)
    (fs : FS) (ir : ℕ × Row) (p : Params) (po : String) (x : ℤ) :
    compute_boundary_distance env fs ir { p with nb_workers := x } po =
      compute_boundary_distance env fs ir p po := rfl

theorem mainResults_one {Arr : Type} (env : Env Arr) (fs : FS) (p : Params)
    (ord : List ℕ) (h : p.nb_workers = 1) :
    mainResults env fs p ord =
      (fs.discover p.path_images p.path_segms).enum.map
        (fun ir => compute_boundary_distance env fs ir p p.path_out) := by
  unfold mainResults
  rw [h, wrapExecuteSequence_one]

theorem mainResults_perm {Arr : Type} (env : Env Arr) (fs : FS) (p : Params)
    (ord : List ℕ) :
    List.Perm (mainResults env fs p ord)
      ((fs.discover p.path_images p.path_segms).enum.map
        (fun ir => compute_boundary_distance env fs ir p p.path_out)) :=
  wrapExecuteSequence_perm _ _ _ _

/-! ### Claim theorems -/

/-- C1: for every pair-table row, parameter set, and output directory, the
per-pair evaluation `compute_boundary_distance` returns the base filename of
the row's image path with its extension removed together with `np.mean` of the
distance list produced by the boundary-distance routine; an empty distance
list yields not-a-number, and the function is total (it returns normally
rather than raising — it is a Lean function into `PairOut`). -/
theorem C1_pair_eval_returns_name_and_mean {Arr : Type} (env : Env Arr) (fs : FS)
    (idx_row : ℕ × Row) (params : Params) (path_out : String) :
    (compute_boundary_distance env fs idx_row params path_out).name =
      splitextStem (osBasename idx_row.2.path_image) ∧
    ∀ dl,
      (env.compute_boundary_distances (env.load_image idx_row.2.path_segm "2d_segm")
        (env.segment_slic_img2d (env.load_image idx_row.2.path_image params.img_type)
          params.slic_size params.slic_regul params.slico)).2 = dl →
      ((compute_boundary_distance env fs idx_row params path_out).dist = npMean dl ∧
       (dl = [] →
         (compute_boundary_distance env fs idx_row params path_out).dist = NpFloat.nan) ∧
       (dl ≠ [] →
         (compute_boundary_distance env fs idx_row params path_out).dist =
           NpFloat.val (dl.sum / dl.length))) := by
  refine ⟨rfl, ?_⟩
  rintro dl rfl
  refine ⟨rfl, ?_, ?_⟩
  · intro h
    show npMean _ = NpFloat.nan
    rw [h]
    rfl
  · intro h
    show npMean _ = _
    unfold npMean
    rw [if_neg h]

/-- Witness for C1 at a concrete environment whose distance list is empty:
the returned name is the image stem and the returned mean is not-a-number. -/
theorem C1_pair_eval_returns_name_and_mean_witness :
    (envU.compute_boundary_distances (envU.load_image rowU.path_segm "2d_segm")
      (envU.segment_slic_img2d (envU.load_image rowU.path_image pU.img_type)
        pU.slic_size pU.slic_regul pU.slico)).2 = [] ∧
    (compute_boundary_distance envU fsNoDir (0, rowU) pU "").name = "img_01" ∧
    (compute_boundary_distance envU fsNoDir (0, rowU) pU "").dist = NpFloat.nan := by
  refine ⟨rfl, ?_, ?_⟩
  · rw [(C1_pair_eval_returns_name_and_mean envU fsNoDir (0, rowU) pU "").1]
    decide
  · exact ((C1_pair_eval_returns_name_and_mean envU fsNoDir (0, rowU) pU "").2
      [] rfl).2.1 rfl

/-- C9: the per-pair evaluation loads the image with the configured mode
`params.img_type` and the annotation always with the fixed segmentation mode
`'2d_segm'`, whatever the configured mode is (the load trace is exactly these
two calls, in this order). -/
theorem C9_annotation_loaded_with_fixed_mode {Arr : Type} (env : Env Arr) (fs : FS)
    (idx_row : ℕ × Row) (params : Params) (path_out : String) :
    (compute_boundary_distance env fs idx_row params path_out).loads =
      [(idx_row.2.path_image, params.img_type), (idx_row.2.path_segm, "2d_segm")] := rfl

/-- C10: the result of `compute_boundary_distance` — return value and effects
(files written, load calls made) — does not depend on the index component of
its `(index, row)` argument. -/
theorem C10_index_component_irrelevant {Arr : Type} (env : Env Arr) (fs : FS)
    (i j : ℕ) (row : Row) (params : Params) (path_out : String) :
    compute_boundary_distance env fs (i, row) params path_out =
      compute_boundary_distance env fs (j, row) params path_out := rfl

/-- C3: when the (normalized) output path is not an existing directory,
`arg_parse_params` raises no assertion for that option (any error it returns
is about another option) and, on every successful return, `path_out` is either
the empty string or an existing directory. -/
theorem C3_path_out_reset_not_asserted (fs : FS) (p : Params) :
    (∀ q, arg_parse_params fs p = Except.ok q →
      q.path_out = "" ∨ fs.isdir q.path_out = true) ∧
    (fs.isdir (fs.updatePath p.path_out) = false →
      ∀ e, arg_parse_params fs p = Except.error e → e.key ≠ "path_out") := by
  constructor
  · intro q hq
    unfold arg_parse_params at hq
    split at hq
    · cases hq
    · split at hq
      · cases hq
      · split at hq
        · cases hq
          left
          rfl
        · split at hq
          · cases hq
          · cases hq
            right
            show fs.isdir (fs.updatePath p.path_out) = true
            simp_all
  · intro hdir e he
    unfold arg_parse_params at he
    rw [hdir] at he
    split at he
    · cases he
      show ("path_images" : String) ≠ "path_out"
      decide
    · split at he
      · cases he
        show ("path_segms" : String) ≠ "path_out"
        decide
      · rw [if_pos rfl] at he
        cases he

/-- Witness for C3: on a filesystem where every path exists but none is a
directory, parameter resolution succeeds and the resolved `path_out` is the
empty string. -/
theorem C3_path_out_reset_not_asserted_witness :
    ∃ q, arg_parse_params fsNoDir pU = Except.ok q ∧
      (q.path_out = "" ∨ fsNoDir.isdir q.path_out = true) :=
  ⟨{ pU with path_out := "" }, by decide,
    (C3_path_out_reset_not_asserted fsNoDir pU).1 _ (by decide)⟩

/-- C7: each required path option (`path_images`, `path_segms`) fails the
assertion exactly when its check target — the dirname of the value when it
contains a wildcard, the full value otherwise — is missing; the error carries
the offending option name and the missing path (rendered in the assertion
message `missing: (key) "path"`), and the failure aborts the script before
`main`, so before any per-pair work. -/
theorem C7_required_path_assertions {Arr : Type} (env : Env Arr) (fs : FS)
    (p : Params) (ord : List ℕ) :
    (fs.pexists (checkTarget (fs.updatePath p.path_images)) = false →
      arg_parse_params fs p =
        Except.error ⟨"path_images", checkTarget (fs.updatePath p.path_images)⟩ ∧
      runScript env fs p ord =
        Except.error ⟨"path_images", checkTarget (fs.updatePath p.path_images)⟩ ∧
      AssertErr.render ⟨"path_images", checkTarget (fs.updatePath p.path_images)⟩ =
        "missing: (path_images) \"" ++ checkTarget (fs.updatePath p.path_images) ++ "\"") ∧
    (fs.pexists (checkTarget (fs.updatePath p.path_images)) = true →
      fs.pexists (checkTarget (fs.updatePath p.path_segms)) = false →
      arg_parse_params fs p =
        Except.error ⟨"path_segms", checkTarget (fs.updatePath p.path_segms)⟩ ∧
      runScript env fs p ord =
        Except.error ⟨"path_segms", checkTarget (fs.updatePath p.path_segms)⟩ ∧
      AssertErr.render ⟨"path_segms", checkTarget (fs.updatePath p.path_segms)⟩ =
        "missing: (path_segms) \"" ++ checkTarget (fs.updatePath p.path_segms) ++ "\"") ∧
    (fs.pexists (checkTarget (fs.updatePath p.path_images)) = true →
      fs.pexists (checkTarget (fs.updatePath p.path_segms)) = true →
      ∀ e, arg_parse_params fs p = Except.error e →
        e.key ≠ "path_images" ∧ e.key ≠ "path_segms") := by
  refine ⟨?_, ?_, ?_⟩
  · intro h1
    have ha : arg_parse_params fs p =
        Except.error ⟨"path_images", checkTarget (fs.updatePath p.path_images)⟩ := by
      unfold arg_parse_params
      rw [if_pos h1]
    refine ⟨ha, ?_, rfl⟩
    unfold runScript
    rw [ha]
  · intro h1 h2
    have ha : arg_parse_params fs p =
        Except.error ⟨"path_segms", checkTarget (fs.updatePath p.path_segms)⟩ := by
      unfold arg_parse_params
      rw [if_neg (by simp [h1]), if_pos h2]
    refine ⟨ha, ?_, rfl⟩
    unfold runScript
    rw [ha]
  · intro h1 h2 e he
    unfold arg_parse_params at he
    rw [if_neg (by simp [h1]), if_neg (by simp [h2])] at he
    split at he
    · cases he
    · split at he
      · cases he
        constructor
        · show ("path_out" : String) ≠ "path_images"
          decide
        · show ("path_out" : String) ≠ "path_segms"
          decide
      · cases he

/-- Witness for C7: on a filesystem where nothing exists, the script aborts
with the assertion error naming `path_images` and its (dirname) check
target, before `main` ever runs. -/
theorem C7_required_path_assertions_witness :
    fsNothing.pexists (checkTarget (fsNothing.updatePath pU.path_images)) = false ∧
    runScript envU fsNothing pU [] =
      Except.error ⟨"path_images", checkTarget (fsNothing.updatePath pU.path_images)⟩ ∧
    AssertErr.render ⟨"path_images", checkTarget (fsNothing.updatePath pU.path_images)⟩ =
      "missing: (path_images) \"images\"" := by
  refine ⟨rfl, ?_, by decide⟩
  exact ((C7_required_path_assertions envU fsNothing pU []).1 rfl).2.1

theorem wrapExecuteSequence_nil {α β : Type} (f : α → β) (n : ℤ) (ord : List ℕ) :
    wrapExecuteSequence f [] n ord = [] := by
  unfold wrapExecuteSequence reorder
  simp [List.filterMap_eq_nil_iff]

/-- C4 counterexample: on a concrete run whose pair discovery yields zero
rows, `main` does not complete normally with an empty summary table — it
aborts with the `KeyError` from `set_index('name')` on the empty frame. -/
theorem C4_empty_pairs_counterexample :
    (mainRun envU fsAllDirEmpty pU []).result = Except.error keyErrorName := by
  decide

/-- C4 (amended): if pair discovery yields zero rows, `main` raises — the
frame built from zero appends has no `'name'` column, so `set_index` fails
with a `KeyError` — and aborts before the statistics step, instead of
completing normally with an empty summary table. -/
theorem C4_empty_pairs_raises {Arr : Type} (env : Env Arr) (fs : FS) (p : Params)
    (ord : List ℕ) (h : fs.discover p.path_images p.path_segms = []) :
    (mainRun env fs p ord).result = Except.error keyErrorName ∧
    "STATISTIC:" ∉ (mainRun env fs p ord).logs := by
  have hres : mainResults env fs p ord = [] := by
    unfold mainResults
    rw [h]
    rw [List.enum_nil, wrapExecuteSequence_nil]
  rw [mainRun_eq_of_nil env fs p ord hres]
  refine ⟨rfl, ?_⟩
  split <;> decide

/-- Witness for C4 (amended) at a concrete empty-discovery filesystem. -/
theorem C4_empty_pairs_raises_witness :
    fsNothing.discover pU.path_images pU.path_segms = [] ∧
    (mainRun envU fsNothing pU []).result = Except.error keyErrorName :=
  ⟨rfl, (C4_empty_pairs_raises envU fsNothing pU [] rfl).1⟩

/-- C5: the condition of line 138 is inverted — `main` logs the
`'Missing output dir -> no visual export & results table.'` notice exactly
when `os.path.isdir(params['path_out'])` is TRUE, and logs nothing of the
sort when the directory is missing; the claim (and the message text itself)
say the notice belongs to the output-unavailable case. -/
theorem C5_notice_condition_inverted :
    fsAllDir.isdir pU.path_out = true ∧
    (mainRun envU fsAllDir pU []).logs.head? = some missingDirMsg ∧
    fsNoDir.isdir pU.path_out = false ∧
    missingDirMsg ∉ (mainRun envU fsNoDir pU []).logs := by
  refine ⟨rfl, ?_, rfl, ?_⟩
  · decide
  · decide

/-- C8: when the output directory is unavailable (`os.path.isdir` is false —
which is the case both for the empty string and for a nonexistent path), a
run over a nonempty pair table writes no per-pair JPEG and no summary CSV
(its write set is empty), yet completes and still logs the `STATISTIC:`
marker and the descriptive statistics of the result table. -/
theorem C8_no_output_dir_no_writes {Arr : Type} (env : Env Arr) (fs : FS)
    (p : Params) (ord : List ℕ) (hdir : fs.isdir p.path_out = false)
    (hne : fs.discover p.path_images p.path_segms ≠ []) :
    (∃ df, (mainRun env fs p ord).result = Except.ok df ∧
      pdDescribe df ∈ (mainRun env fs p ord).logs) ∧
    (mainRun env fs p ord).writes = [] ∧
    "STATISTIC:" ∈ (mainRun env fs p ord).logs := by
  have hlen : (mainResults env fs p ord).length =
      (fs.discover p.path_images p.path_segms).length := by
    rw [(mainResults_perm env fs p ord).length_eq]
    simp
  have hne' : mainResults env fs p ord ≠ [] := by
    intro h0
    apply hne
    rw [h0] at hlen
    exact List.eq_nil_of_length_eq_zero hlen.symm
  have hwr : ∀ r ∈ mainResults env fs p ord, PairOut.writes r = [] := by
    intro r hr
    have hmem : r ∈ (fs.discover p.path_images p.path_segms).enum.map
        (fun ir => compute_boundary_distance env fs ir p p.path_out) :=
      ((mainResults_perm env fs p ord).mem_iff).mp hr
    obtain ⟨ir, _, rfl⟩ := List.mem_map.mp hmem
    simp [compute_boundary_distance, hdir]
  rw [mainRun_eq_of_ne_nil env fs p ord hne']
  simp only [hdir, Bool.false_eq_true, if_false]
  refine ⟨⟨_, rfl, ?_⟩, ?_, ?_⟩
  · simp
  · simp only [List.append_nil, List.flatten_eq_nil_iff, List.mem_map]
    rintro x ⟨r, hr, rfl⟩
    exact hwr r hr
  · simp

/-- Witness for C8: a concrete run with one pair and no output directory
writes nothing and logs the statistics. -/
theorem C8_no_output_dir_no_writes_witness :
    fsNoDir.isdir pU.path_out = false ∧
    fsNoDir.discover pU.path_images pU.path_segms ≠ [] ∧
    (mainRun envU fsNoDir pU []).writes = [] ∧
    "STATISTIC:" ∈ (mainRun envU fsNoDir pU []).logs := by
  refine ⟨rfl, by decide, ?_, ?_⟩
  · exact (C8_no_output_dir_no_writes envU fsNoDir pU [] rfl (by decide)).2.1
  · exact (C8_no_output_dir_no_writes envU fsNoDir pU [] rfl (by decide)).2.2

/-- C2: for every valid parameter set over a nonempty pair table, running the
pipeline with one worker and with any worker count `N > 1` — under any
completion order of the pool — produces result tables whose multisets of
records (the `(name, mean distance)` rows) are equal: worker count and
completion order affect only row order. -/
theorem C2_worker_count_and_completion_order_irrelevant {Arr : Type}
    (env : Env Arr) (fs : FS) (p : Params) (ord ordN : List ℕ) (N : ℤ)
    (hN : 1 < N) (hne : fs.discover p.path_images p.path_segms ≠ []) :
    ∃ df1 dfN : PdFrame,
      (mainRun env fs { p with nb_workers := 1 } ord).result = Except.ok df1 ∧
      (mainRun env fs { p with nb_workers := N } ordN).result = Except.ok dfN ∧
      (↑df1.recs : Multiset (List (String × PdVal))) = ↑dfN.recs := by
  have h1 : mainResults env fs { p with nb_workers := 1 } ord =
      (fs.discover p.path_images p.path_segms).enum.map
        (fun ir => compute_boundary_distance env fs ir p p.path_out) :=
    mainResults_one env fs _ ord rfl
  have hperm : List.Perm (mainResults env fs { p with nb_workers := N } ordN)
      ((fs.discover p.path_images p.path_segms).enum.map
        (fun ir => compute_boundary_distance env fs ir p p.path_out)) :=
    mainResults_perm env fs _ ordN
  have hne1 : (fs.discover p.path_images p.path_segms).enum.map
      (fun ir => compute_boundary_distance env fs ir p p.path_out) ≠ [] := by
    intro h0
    apply hne
    have hl := congrArg List.length h0
    simp only [List.length_map, List.enum_length, List.length_nil] at hl
    exact List.eq_nil_of_length_eq_zero hl
  have hne1' : mainResults env fs { p with nb_workers := 1 } ord ≠ [] := by
    rw [h1]
    exact hne1
  have hneN : mainResults env fs { p with nb_workers := N } ordN ≠ [] := by
    intro h0
    apply hne1
    have hl := hperm.length_eq
    rw [h0] at hl
    exact List.eq_nil_of_length_eq_zero (by simpa using hl.symm)
  refine ⟨{ cols := (aggregate (mainResults env fs { p with nb_workers := 1 } ord)).cols.filter
              (fun x => x != "name")
            recs := (mainResults env fs { p with nb_workers := 1 } ord).map distRec },
          { cols := (aggregate (mainResults env fs { p with nb_workers := N } ordN)).cols.filter
              (fun x => x != "name")
            recs := (mainResults env fs { p with nb_workers := N } ordN).map distRec },
          ?_, ?_, ?_⟩
  · rw [mainRun_eq_of_ne_nil env fs _ ord hne1']
  · rw [mainRun_eq_of_ne_nil env fs _ ordN hneN]
  · show (↑((mainResults env fs { p with nb_workers := 1 } ord).map distRec) :
        Multiset (List (String × PdVal))) =
      ↑((mainResults env fs { p with nb_workers := N } ordN).map distRec)
    have hm : List.Perm ((mainResults env fs { p with nb_workers := 1 } ord).map distRec)
        ((mainResults env fs { p with nb_workers := N } ordN).map distRec) := by
      rw [h1]
      exact (hperm.map distRec).symm
    exact Multiset.coe_eq_coe.mpr hm

/-- Witness for C2: a concrete one-pair run with one worker versus two
workers (completion order `[0]`) yields record-multiset-equal tables. -/
theorem C2_worker_count_and_completion_order_irrelevant_witness :
    (1 : ℤ) < 2 ∧ fsNoDir.discover pU.path_images pU.path_segms ≠ [] ∧
    ∃ df1 dfN : PdFrame,
      (mainRun envU fsNoDir { pU with nb_workers := 1 } []).result = Except.ok df1 ∧
      (mainRun envU fsNoDir { pU with nb_workers := 2 } [0]).result = Except.ok dfN ∧
      (↑df1.recs : Multiset (List (String × PdVal))) = ↑dfN.recs := by
  refine ⟨by decide, by decide, ?_⟩
  exact C2_worker_count_and_completion_order_irrelevant envU fsNoDir pU [] [0] 2
    (by decide) (by decide)

/-- C6 counterexample: two parameter sets that differ — regularization 0.251
versus 0.252, both valid parameter values — produce the SAME summary
filename, because `%.2f` renders both as `0.25`; so "runs with different
parameters write to different filenames" is false as stated. -/
theorem C6_filename_collision_counterexample :
    q251 ≠ q252 ∧
    NAME_CSV_DISTANCES 20 q251 false = NAME_CSV_DISTANCES 20 q252 false := by
  constructor
  · decide
  · decide

/-- C6 (amended): the summary filename embeds the configured region size
(`%i`), the regularization rendered at two decimal places (`%.2f`), and the
adaptive flag as 0/1; for region size 20, regularization 0.25 and flag false
it contains the substring `size-20_regul-0.25_slico-0`; and two runs write to
different filenames exactly when they differ in region size, in the adaptive
flag, or in the two-decimal rendering of the regularization (parameter sets
whose regularizations agree to two decimals collide). -/
theorem C6_filename_encodes_parameters (s s' : ℤ) (r r' : ℚ) (b b' : Bool) :
    (NAME_CSV_DISTANCES s r b = NAME_CSV_DISTANCES s' r' b' ↔
      (s = s' ∧ fixed2Chars r = fixed2Chars r' ∧ b = b')) ∧
    "size-20_regul-0.25_slico-0".data <:+: (NAME_CSV_DISTANCES 20 qQuarter false).data := by
  constructor
  · constructor
    · intro h
      exact (nameCsvChars_eq_iff s s' r r' b b').mp (congrArg String.data h)
    · intro h
      unfold NAME_CSV_DISTANCES
      rw [(nameCsvChars_eq_iff s s' r r' b b').mpr h]
  · decide
